import Mathlib

/-! Formal model of the per-seat occupancy state machine of the
library-seat-detection repository (src/seat.py).  Pixel images are grids of
natural numbers with Python/numpy slicing semantics; the background-subtractor
component (background_subtractor.py, which is not among the sources) and the
small geometry helpers of seat_utils are modelled from the spec as an abstract
interface resp. explicit formulas. -/

/-- A pixel image: a list of rows of grayscale pixel values (model of a 2-D
numpy array). -/
abbrev Image : Type := List (List Nat)

/-- Axis-aligned rectangle (x0, y0, x1, y1) as used throughout seat.py. -/
structure Rect where
  x0 : Int
  y0 : Int
  x1 : Int
  y1 : Int
  deriving DecidableEq

/-- Modelled from the spec: seat_utils.rectangle_area (seat_utils.py is not
among the sources); spec 4.1: returns max(0,x1-x0) * max(0,y1-y0). -/
def rectangle_area (r : Rect) : Int :=
  max 0 (r.x1 - r.x0) * max 0 (r.y1 - r.y0)

/-- Modelled from the spec: seat_utils.rectangle_overlap (seat_utils.py is not
among the sources); spec 4.1: area of the intersection, 0 if disjoint. -/
def rectangle_overlap (a b : Rect) : Int :=
  max 0 (min a.x1 b.x1 - max a.x0 b.x0) * max 0 (min a.y1 b.y1 - max a.y0 b.y0)

/-- Normalization of one Python slice bound: for a list of length n, a
negative index i denotes max 0 (n + i), a non-negative one min i n. -/
def pySliceIdx (n : Nat) (i : Int) : Nat :=
  if i < 0 then ((n : Int) + i).toNat else min i.toNat n

/-- Python list slicing l[a:b] (step 1). -/
def pySlice {α : Type} (l : List α) (a b : Int) : List α :=
  List.take (pySliceIdx l.length b - pySliceIdx l.length a)
    (List.drop (pySliceIdx l.length a) l)

/-- Numpy 2-D slicing img[y0:y1, x0:x1], as used by Seat.get_seat_image and
Seat.get_table_image. -/
def cropImage (img : Image) (r : Rect) : Image :=
  List.map (fun row => pySlice row r.x0 r.x1) (pySlice img r.y0 r.y1)

/-- True when the image has zero area: no rows, or only empty rows. -/
def zeroArea (img : Image) : Bool := List.all img List.isEmpty

/-- Modelled from the spec: seat_utils.SeatStatus (seat_utils.py is not among
the sources); spec 4.3: states EMPTY, ON_HOLD, OCCUPIED. -/
inductive SeatStatus
  | EMPTY
  | ON_HOLD
  | OCCUPIED
  deriving DecidableEq

/-- Modelled from the spec: the interface of BackgroundSubtractorMOG2
(background_subtractor.py is not among the sources).  S is the type of the
mutable background state, Mask the type of binary masks.  construct seeds the
background from an initial tabletop image; get_foreground computes the binary
foreground mask without mutating the state; get_leftover_object_mask zeroes
every blob of a foreground mask whose pixel area is below min_area; any tests
whether a mask contains any nonzero pixel (numpy .any()); apply blends an
image into the background estimate. -/
structure BGAlg (Mask S : Type) where
  construct : Image → S
  get_foreground : S → Image → Mask
  get_leftover_object_mask : Mask → ℚ → Mask
  any : Mask → Bool
  apply : S → Image → S

/-- seat.py line 35: self.MAX_SKIP_FRAMES = 30. -/
def MAX_SKIP_FRAMES : Int := 30

/-- seat.py line 36: self.MAX_EMPTY_FRAMES = 100. -/
def MAX_EMPTY_FRAMES : Int := 100

/-- seat.py line 37: self.TRANSITION_FRAMES_THRESHOLD = 100. -/
def TRANSITION_FRAMES_THRESHOLD : Int := 100

/-- seat.py line 44: self.CONTOUR_AREA_THRESHOLD = 2500 (rational, because
the EMPTY-state check multiplies it by the float 1.5). -/
def CONTOUR_AREA_THRESHOLD : ℚ := 2500

/-- The state of one Seat object (seat.py lines 16-44). -/
structure Seat (Mask S : Type) where
  status : SeatStatus
  bb_coordinates : Rect
  bb_area : Int
  table_bb : Rect
  person_in_frame_counter : Int
  empty_seat_counter : Int
  object_in_frame_counter : Int
  skip_counter : Int
  empty_chair_bb : Option Rect
  current_chair_bb : Option Rect
  bg_subtractor : S

/-- The cropping computation of seat.py lines 24-29 and 134-140: clip bbox to
the seat bounding box and translate into seat-local coordinates. -/
def crop_box_to_seat (seat_bb bbox : Rect) : Rect :=
  let x0 := max seat_bb.x0 bbox.x0
  let y0 := max seat_bb.y0 bbox.y0
  let width := min seat_bb.x1 bbox.x1 - x0
  let height := min seat_bb.y1 bbox.y1 - y0
  let x0l := x0 - seat_bb.x0
  let y0l := y0 - seat_bb.y0
  ⟨x0l, y0l, x0l + width, y0l + height⟩

/-- Seat.__init__ (seat.py lines 8-44).  initial_background is the seat-sized
crop of the first frame, as passed by the orchestrator. -/
def Seat.init {Mask S : Type} (alg : BGAlg Mask S) (initial_background : Image)
    (bb_coordinates table_bb : Rect) : Seat Mask S :=
  let tbb := crop_box_to_seat bb_coordinates table_bb
  { status := SeatStatus.EMPTY
    bb_coordinates := bb_coordinates
    bb_area := rectangle_area bb_coordinates
    table_bb := tbb
    person_in_frame_counter := 0
    empty_seat_counter := 0
    object_in_frame_counter := 0
    skip_counter := 0
    empty_chair_bb := none
    current_chair_bb := none
    bg_subtractor := alg.construct (cropImage initial_background tbb) }

/-- Seat.get_table_image (seat.py lines 51-53). -/
def Seat.get_table_image {Mask S : Type} (s : Seat Mask S) (seat_img : Image) : Image :=
  cropImage seat_img s.table_bb

/-- Seat.check_leftover_obj (seat.py lines 146-152).  The threshold argument
is accepted but the minimum blob area passed to get_leftover_object_mask is
the hardcoded 2000 of line 152. -/
def Seat.check_leftover_obj {Mask S : Type} (s : Seat Mask S) (alg : BGAlg Mask S)
    (seat_img : Image) (threshold : ℚ) : Mask :=
  let table_img := s.get_table_image seat_img
  let foreground := alg.get_foreground s.bg_subtractor table_img
  alg.get_leftover_object_mask foreground 2000

/-- Seat.update_background (seat.py lines 154-157). -/
def Seat.update_background {Mask S : Type} (alg : BGAlg Mask S) (s : Seat Mask S)
    (seat_img : Image) : Seat Mask S :=
  { s with bg_subtractor := alg.apply s.bg_subtractor (s.get_table_image seat_img) }

/-- Seat.become_occupied (seat.py lines 111-117). -/
def Seat.become_occupied {Mask S : Type} (s : Seat Mask S) : Seat Mask S :=
  { s with person_in_frame_counter := MAX_EMPTY_FRAMES
           skip_counter := 0
           object_in_frame_counter := 0
           status := SeatStatus.OCCUPIED }

/-- Seat.become_empty (seat.py lines 119-123). -/
def Seat.become_empty {Mask S : Type} (s : Seat Mask S) : Seat Mask S :=
  { s with skip_counter := 0
           object_in_frame_counter := 0
           status := SeatStatus.EMPTY }

/-- Seat.become_on_hold (seat.py lines 125-128). -/
def Seat.become_on_hold {Mask S : Type} (s : Seat Mask S) : Seat Mask S :=
  { s with object_in_frame_counter := 0
           status := SeatStatus.ON_HOLD }

/-- Seat.person_detected (seat.py lines 55-69). -/
def Seat.person_detected {Mask S : Type} (s : Seat Mask S) : Seat Mask S :=
  let s1 : Seat Mask S := { s with skip_counter := 0 }
  match s1.status with
  | SeatStatus.EMPTY =>
      let s2 : Seat Mask S :=
        { s1 with person_in_frame_counter := s1.person_in_frame_counter + 1 }
      if s2.person_in_frame_counter = TRANSITION_FRAMES_THRESHOLD then
        s2.become_occupied
      else s2
  | SeatStatus.ON_HOLD =>
      if s1.person_in_frame_counter = TRANSITION_FRAMES_THRESHOLD then
        s1.become_occupied
      else { s1 with person_in_frame_counter := s1.person_in_frame_counter + 1 }
  | SeatStatus.OCCUPIED =>
      if s1.person_in_frame_counter < MAX_EMPTY_FRAMES then
        { s1 with person_in_frame_counter := MAX_EMPTY_FRAMES }
      else s1

/-- Seat.no_person_detected (seat.py lines 71-109). -/
def Seat.no_person_detected {Mask S : Type} (alg : BGAlg Mask S) (s : Seat Mask S)
    (seat_img : Image) : Seat Mask S :=
  match s.status with
  | SeatStatus.OCCUPIED =>
      let leftover := alg.any (s.check_leftover_obj alg seat_img CONTOUR_AREA_THRESHOLD)
      if leftover = false then
        let s1 : Seat Mask S :=
          { s with person_in_frame_counter := s.person_in_frame_counter - 1 }
        if s1.person_in_frame_counter = 0 then s1.become_empty else s1
      else s.become_on_hold
  | SeatStatus.ON_HOLD =>
      let leftover := alg.any (s.check_leftover_obj alg seat_img CONTOUR_AREA_THRESHOLD)
      let s1 : Seat Mask S :=
        if 0 < s.person_in_frame_counter then
          { s with person_in_frame_counter := s.person_in_frame_counter - 1 }
        else s
      if leftover = false then
        if s1.person_in_frame_counter = 0 then s1.become_empty else s1
      else s1
  | SeatStatus.EMPTY =>
      if s.skip_counter < MAX_SKIP_FRAMES then
        { s with skip_counter := s.skip_counter + 1 }
      else if 0 < s.person_in_frame_counter then
        { s with person_in_frame_counter := s.person_in_frame_counter - 1 }
      else
        let leftover :=
          alg.any (s.check_leftover_obj alg seat_img (CONTOUR_AREA_THRESHOLD * 1.5))
        if leftover = false then
          let s1 := Seat.update_background alg s seat_img
          if 0 < s1.object_in_frame_counter then
            { s1 with object_in_frame_counter := 0 }
          else s1
        else
          let s1 : Seat Mask S :=
            { s with object_in_frame_counter := s.object_in_frame_counter + 1 }
          if s1.object_in_frame_counter = TRANSITION_FRAMES_THRESHOLD then
            { s1.become_on_hold with object_in_frame_counter := 0 }
          else s1

/-- Seat.update_chair_bb (seat.py lines 130-144). -/
def Seat.update_chair_bb {Mask S : Type} (s : Seat Mask S) (bbox : Rect) : Seat Mask S :=
  let cropped := crop_box_to_seat s.bb_coordinates bbox
  let s1 : Seat Mask S := { s with current_chair_bb := some cropped }
  if s1.status = SeatStatus.EMPTY then { s1 with empty_chair_bb := some cropped } else s1

/-- The states a Seat can reach from construction by any sequence of
person_detected, no_person_detected and update_chair_bb calls. -/
inductive Reachable {Mask S : Type} (alg : BGAlg Mask S) : Seat Mask S → Prop
  | init (bg : Image) (bb tbb : Rect) : Reachable alg (Seat.init alg bg bb tbb)
  | seen {s : Seat Mask S} (h : Reachable alg s) : Reachable alg s.person_detected
  | absent {s : Seat Mask S} (h : Reachable alg s) (img : Image) :
      Reachable alg (Seat.no_person_detected alg s img)
  | chair {s : Seat Mask S} (h : Reachable alg s) (box : Rect) :
      Reachable alg (s.update_chair_bb box)

/-- Counter invariant maintained by every reachable seat state. -/
def SeatInv {Mask S : Type} (s : Seat Mask S) : Prop :=
  0 ≤ s.person_in_frame_counter ∧ 0 ≤ s.skip_counter ∧
    0 ≤ s.object_in_frame_counter ∧ s.person_in_frame_counter ≤ 100 ∧
    (s.status = SeatStatus.EMPTY → s.person_in_frame_counter ≤ 99) ∧
    (s.status = SeatStatus.OCCUPIED → 1 ≤ s.person_in_frame_counter)

lemma seatInv_init {Mask S : Type} (alg : BGAlg Mask S) (bg : Image) (bb tbb : Rect) :
    SeatInv (Seat.init alg bg bb tbb) := by
  simp [SeatInv, Seat.init]

lemma seatInv_person_detected {Mask S : Type} {s : Seat Mask S} (h : SeatInv s) :
    SeatInv s.person_detected := by
  obtain ⟨st, bb, ba, tb, p, e, o, sk, ecb, ccb, bg⟩ := s
  simp only [SeatInv] at h
  cases st <;>
    simp only [Seat.person_detected, Seat.become_occupied, SeatInv,
      TRANSITION_FRAMES_THRESHOLD, MAX_EMPTY_FRAMES] at h ⊢ <;>
    split <;> simp_all <;> omega

lemma seatInv_no_person_detected {Mask S : Type} (alg : BGAlg Mask S) {s : Seat Mask S}
    (img : Image) (h : SeatInv s) : SeatInv (Seat.no_person_detected alg s img) := by
  obtain ⟨st, bb, ba, tb, p, e, o, sk, ecb, ccb, bg⟩ := s
  simp only [SeatInv] at h
  cases st
  all_goals
    simp only [Seat.no_person_detected, Seat.become_empty, Seat.become_on_hold,
      Seat.update_background, SeatInv, TRANSITION_FRAMES_THRESHOLD, MAX_EMPTY_FRAMES,
      MAX_SKIP_FRAMES] at h ⊢
  all_goals repeat' split
  all_goals simp_all
  all_goals omega

lemma seatInv_update_chair_bb {Mask S : Type} {s : Seat Mask S} (box : Rect)
    (h : SeatInv s) : SeatInv (s.update_chair_bb box) := by
  obtain ⟨st, bb, ba, tb, p, e, o, sk, ecb, ccb, bg⟩ := s
  simp only [SeatInv] at h
  simp only [Seat.update_chair_bb, SeatInv]
  split <;> simp_all

lemma seatInv_of_reachable {Mask S : Type} {alg : BGAlg Mask S} {s : Seat Mask S}
    (h : Reachable alg s) : SeatInv s := by
  induction h with
  | init bg bb tbb => exact seatInv_init alg bg bb tbb
  | seen _ ih => exact seatInv_person_detected ih
  | absent _ img ih => exact seatInv_no_person_detected alg img ih
  | chair _ box ih => exact seatInv_update_chair_bb box ih

lemma person_detected_empty_step {Mask S : Type} (s : Seat Mask S)
    (h1 : s.status = SeatStatus.EMPTY)
    (h2 : s.person_in_frame_counter + 1 ≠ TRANSITION_FRAMES_THRESHOLD) :
    Seat.person_detected s =
      { s with skip_counter := 0
               person_in_frame_counter := s.person_in_frame_counter + 1 } := by
  obtain ⟨st, bb, ba, tb, p, e, o, sk, ecb, ccb, bg⟩ := s
  cases st <;> simp_all [Seat.person_detected, Seat.become_occupied,
    TRANSITION_FRAMES_THRESHOLD]

lemma person_detected_empty_100 {Mask S : Type} (s : Seat Mask S)
    (h1 : s.status = SeatStatus.EMPTY) (h2 : s.person_in_frame_counter = 99) :
    Seat.person_detected s =
      Seat.become_occupied { s with skip_counter := 0, person_in_frame_counter := 100 } := by
  obtain ⟨st, bb, ba, tb, p, e, o, sk, ecb, ccb, bg⟩ := s
  cases st <;> simp_all [Seat.person_detected, Seat.become_occupied,
    TRANSITION_FRAMES_THRESHOLD, MAX_EMPTY_FRAMES]

lemma person_detected_iter_empty {Mask S : Type} (s : Seat Mask S)
    (h1 : s.status = SeatStatus.EMPTY) (h2 : s.person_in_frame_counter = 0) :
    ∀ k : Nat, k ≤ 99 →
      (Seat.person_detected^[k] s).status = SeatStatus.EMPTY ∧
      (Seat.person_detected^[k] s).person_in_frame_counter = (k : Int) := by
  intro k
  induction k with
  | zero => intro _; simpa [h1] using h2
  | succ n ih =>
      intro hle
      obtain ⟨ha, hb⟩ := ih (by omega)
      rw [Function.iterate_succ_apply']
      rw [person_detected_empty_step _ ha
        (by rw [hb]; simp only [TRANSITION_FRAMES_THRESHOLD]; omega)]
      refine ⟨by simp [ha], ?_⟩
      simp only [hb]
      push_cast
      ring

/-- C1: starting from EMPTY with person_in_frame_counter = 0, one hundred
consecutive person_detected calls leave the status EMPTY after each of the
first 99 calls and transition to OCCUPIED exactly on the 100th, which sets
person_in_frame_counter to MAX_EMPTY_FRAMES = 100 and resets skip_counter and
object_in_frame_counter to 0. -/
theorem claim_C1 {Mask S : Type} (s : Seat Mask S)
    (h1 : s.status = SeatStatus.EMPTY) (h2 : s.person_in_frame_counter = 0) :
    (∀ k : Nat, 1 ≤ k → k ≤ 99 →
        (Seat.person_detected^[k] s).status = SeatStatus.EMPTY) ∧
    (Seat.person_detected^[100] s).status = SeatStatus.OCCUPIED ∧
    (Seat.person_detected^[100] s).person_in_frame_counter = MAX_EMPTY_FRAMES ∧
    (Seat.person_detected^[100] s).skip_counter = 0 ∧
    (Seat.person_detected^[100] s).object_in_frame_counter = 0 := by
  have aux := person_detected_iter_empty s h1 h2
  have h99 := aux 99 (by omega)
  have hstep : Seat.person_detected^[100] s =
      Seat.become_occupied
        { (Seat.person_detected^[99] s) with skip_counter := 0
                                             person_in_frame_counter := 100 } := by
    have h100 : (100 : Nat) = 99 + 1 := rfl
    rw [h100, Function.iterate_succ_apply',
      person_detected_empty_100 _ h99.1 (by exact_mod_cast h99.2)]
  refine ⟨fun k hk1 hk2 => (aux k hk2).1, ?_, ?_, ?_, ?_⟩ <;>
    rw [hstep] <;> simp [Seat.become_occupied, MAX_EMPTY_FRAMES]

/-- A concrete background-model instance whose leftover check never reports
an object (foreground always empty). -/
def falseAlg : BGAlg Bool Nat where
  construct := fun _ => 0
  get_foreground := fun _ _ => false
  get_leftover_object_mask := fun m _ => m
  any := fun m => m
  apply := fun b _ => b + 1

/-- A concrete background-model instance whose leftover check always reports
an object. -/
def trueAlg : BGAlg Bool Nat :=
  { falseAlg with get_foreground := fun _ _ => true }

/-- A freshly constructed concrete seat. -/
def seat0 : Seat Bool Nat :=
  Seat.init falseAlg [] ⟨0, 0, 10, 10⟩ ⟨0, 0, 10, 10⟩

theorem claim_C1_witness :
    seat0.status = SeatStatus.EMPTY ∧ seat0.person_in_frame_counter = 0 ∧
    (Seat.person_detected^[100] seat0).status = SeatStatus.OCCUPIED ∧
    (Seat.person_detected^[100] seat0).person_in_frame_counter = MAX_EMPTY_FRAMES :=
  ⟨rfl, rfl, (claim_C1 seat0 rfl rfl).2.1, (claim_C1 seat0 rfl rfl).2.2.1⟩

/-- k successive no_person_detected calls fed by the image sequence imgs. -/
def iterAbsent {Mask S : Type} (alg : BGAlg Mask S) (imgs : Nat → Image)
    (s : Seat Mask S) : Nat → Seat Mask S
  | 0 => s
  | k + 1 => Seat.no_person_detected alg (iterAbsent alg imgs s k) (imgs k)

lemma check_leftover_obj_congr {Mask S : Type} {s t : Seat Mask S} (alg : BGAlg Mask S)
    (hbg : s.bg_subtractor = t.bg_subtractor) (htb : s.table_bb = t.table_bb)
    (img : Image) (thr thr2 : ℚ) :
    s.check_leftover_obj alg img thr = t.check_leftover_obj alg img thr2 := by
  simp [Seat.check_leftover_obj, Seat.get_table_image, hbg, htb]

lemma npd_occupied_no_obj {Mask S : Type} (alg : BGAlg Mask S) (s : Seat Mask S)
    (img : Image) (hst : s.status = SeatStatus.OCCUPIED)
    (hno : alg.any (s.check_leftover_obj alg img CONTOUR_AREA_THRESHOLD) = false) :
    Seat.no_person_detected alg s img =
      if s.person_in_frame_counter - 1 = 0 then
        Seat.become_empty
          { s with person_in_frame_counter := s.person_in_frame_counter - 1 }
      else { s with person_in_frame_counter := s.person_in_frame_counter - 1 } := by
  obtain ⟨st, bb, ba, tb, p, e, o, sk, ecb, ccb, bg⟩ := s
  cases st <;> simp_all [Seat.no_person_detected]

lemma iterAbsent_occupied {Mask S : Type} (alg : BGAlg Mask S) (imgs : Nat → Image)
    (s : Seat Mask S) (h1 : s.status = SeatStatus.OCCUPIED)
    (h2 : s.person_in_frame_counter = 100)
    (hno : ∀ k : Nat, k < 100 →
      alg.any (s.check_leftover_obj alg (imgs k) CONTOUR_AREA_THRESHOLD) = false) :
    ∀ k : Nat, k ≤ 99 →
      (iterAbsent alg imgs s k).status = SeatStatus.OCCUPIED ∧
      (iterAbsent alg imgs s k).person_in_frame_counter = 100 - (k : Int) ∧
      (iterAbsent alg imgs s k).bg_subtractor = s.bg_subtractor ∧
      (iterAbsent alg imgs s k).table_bb = s.table_bb := by
  intro k
  induction k with
  | zero => exact fun _ => ⟨h1, by simp [iterAbsent, h2], rfl, rfl⟩
  | succ n ih =>
      intro hle
      obtain ⟨ha, hb, hc, hd⟩ := ih (by omega)
      have hnoK : alg.any ((iterAbsent alg imgs s n).check_leftover_obj alg (imgs n)
          CONTOUR_AREA_THRESHOLD) = false := by
        rw [check_leftover_obj_congr alg hc hd (imgs n) CONTOUR_AREA_THRESHOLD
          CONTOUR_AREA_THRESHOLD]
        exact hno n (by omega)
      rw [iterAbsent, npd_occupied_no_obj alg _ _ ha hnoK,
        if_neg (by rw [hb]; omega)]
      refine ⟨by simp [ha], ?_, by simp [hc], by simp [hd]⟩
      simp only [hb]
      push_cast
      ring

/-- C2: from a state that has just become OCCUPIED (person_in_frame_counter =
100), one hundred consecutive no_person_detected calls whose leftover check
reports no object decrement person_in_frame_counter by one per call, leave the
status OCCUPIED after each of the first 99 calls, and transition to EMPTY
exactly on the 100th call, when the counter reaches 0. -/
theorem claim_C2 {Mask S : Type} (alg : BGAlg Mask S) (imgs : Nat → Image)
    (s : Seat Mask S) (h1 : s.status = SeatStatus.OCCUPIED)
    (h2 : s.person_in_frame_counter = 100)
    (hno : ∀ k : Nat, k < 100 →
      alg.any (s.check_leftover_obj alg (imgs k) CONTOUR_AREA_THRESHOLD) = false) :
    (∀ k : Nat, k ≤ 100 →
        (iterAbsent alg imgs s k).person_in_frame_counter = 100 - (k : Int)) ∧
    (∀ k : Nat, 1 ≤ k → k ≤ 99 →
        (iterAbsent alg imgs s k).status = SeatStatus.OCCUPIED) ∧
    (iterAbsent alg imgs s 100).status = SeatStatus.EMPTY := by
  have aux := iterAbsent_occupied alg imgs s h1 h2 hno
  have h99 := aux 99 (by omega)
  have hnoK : alg.any ((iterAbsent alg imgs s 99).check_leftover_obj alg (imgs 99)
      CONTOUR_AREA_THRESHOLD) = false := by
    rw [check_leftover_obj_congr alg h99.2.2.1 h99.2.2.2 (imgs 99)
      CONTOUR_AREA_THRESHOLD CONTOUR_AREA_THRESHOLD]
    exact hno 99 (by omega)
  have h100eq : iterAbsent alg imgs s 100 =
      Seat.become_empty
        { (iterAbsent alg imgs s 99) with
            person_in_frame_counter :=
              (iterAbsent alg imgs s 99).person_in_frame_counter - 1 } := by
    have h100 : (100 : Nat) = 99 + 1 := rfl
    rw [h100, iterAbsent, npd_occupied_no_obj alg _ _ h99.1 hnoK,
      if_pos (by rw [h99.2.1]; norm_num)]
  refine ⟨?_, fun k hk1 hk2 => (aux k hk2).1, ?_⟩
  · intro k hk
    rcases Nat.lt_or_ge k 100 with hlt | hge
    · exact (aux k (by omega)).2.1
    · have hkeq : k = 100 := by omega
      subst hkeq
      rw [h100eq]
      simp only [Seat.become_empty]
      simp only [h99.2.1]
      norm_num
  · rw [h100eq]
    simp [Seat.become_empty]

/-- A concrete seat that has just become OCCUPIED. -/
def seatOcc : Seat Bool Nat :=
  { seat0 with status := SeatStatus.OCCUPIED, person_in_frame_counter := 100 }

theorem claim_C2_witness :
    seatOcc.status = SeatStatus.OCCUPIED ∧ seatOcc.person_in_frame_counter = 100 ∧
    (iterAbsent falseAlg (fun _ => []) seatOcc 100).status = SeatStatus.EMPTY :=
  ⟨rfl, rfl,
    (claim_C2 falseAlg (fun _ => []) seatOcc rfl rfl (fun _ _ => rfl)).2.2⟩

lemma npd_occupied_obj {Mask S : Type} (alg : BGAlg Mask S) (s : Seat Mask S)
    (img : Image) (hst : s.status = SeatStatus.OCCUPIED)
    (hobj : alg.any (s.check_leftover_obj alg img CONTOUR_AREA_THRESHOLD) = true) :
    Seat.no_person_detected alg s img = s.become_on_hold := by
  obtain ⟨st, bb, ba, tb, p, e, o, sk, ecb, ccb, bg⟩ := s
  cases st <;> simp_all [Seat.no_person_detected]

/-- C3: a single no_person_detected call on an OCCUPIED seat whose leftover
check reports an object transitions to ON_HOLD on that same call, resetting
object_in_frame_counter to 0 and leaving person_in_frame_counter unchanged,
for every value of the counters. -/
theorem claim_C3 {Mask S : Type} (alg : BGAlg Mask S) (s : Seat Mask S) (img : Image)
    (hst : s.status = SeatStatus.OCCUPIED)
    (hobj : alg.any (s.check_leftover_obj alg img CONTOUR_AREA_THRESHOLD) = true) :
    (Seat.no_person_detected alg s img).status = SeatStatus.ON_HOLD ∧
    (Seat.no_person_detected alg s img).object_in_frame_counter = 0 ∧
    (Seat.no_person_detected alg s img).person_in_frame_counter =
      s.person_in_frame_counter ∧
    (Seat.no_person_detected alg s img).skip_counter = s.skip_counter := by
  rw [npd_occupied_obj alg s img hst hobj]
  simp [Seat.become_on_hold]

theorem claim_C3_witness :
    seatOcc.status = SeatStatus.OCCUPIED ∧
    trueAlg.any (seatOcc.check_leftover_obj trueAlg [] CONTOUR_AREA_THRESHOLD) = true ∧
    (Seat.no_person_detected trueAlg seatOcc []).status = SeatStatus.ON_HOLD :=
  ⟨rfl, rfl, (claim_C3 trueAlg seatOcc [] rfl rfl).1⟩

/-- C9: update_chair_bb always stores the seat-local cropped box in
current_chair_bb, stores the same value in empty_chair_bb exactly when the
status at call time is EMPTY, and otherwise leaves empty_chair_bb (and the
rest of the state) unchanged. -/
theorem claim_C9 {Mask S : Type} (s : Seat Mask S) (box : Rect) :
    (s.update_chair_bb box).current_chair_bb =
      some (crop_box_to_seat s.bb_coordinates box) ∧
    (s.update_chair_bb box).empty_chair_bb =
      (if s.status = SeatStatus.EMPTY then
        some (crop_box_to_seat s.bb_coordinates box)
      else s.empty_chair_bb) ∧
    (s.update_chair_bb box).status = s.status ∧
    (s.update_chair_bb box).person_in_frame_counter = s.person_in_frame_counter ∧
    (s.update_chair_bb box).skip_counter = s.skip_counter ∧
    (s.update_chair_bb box).object_in_frame_counter = s.object_in_frame_counter ∧
    (s.update_chair_bb box).bg_subtractor = s.bg_subtractor := by
  obtain ⟨st, bb, ba, tb, p, e, o, sk, ecb, ccb, bg⟩ := s
  simp only [Seat.update_chair_bb]
  split <;> simp_all

/-- A concrete background-model instance over blob-area-list masks, faithful
to the spec description of leftover_object_mask: it keeps exactly the blobs
whose area reaches the min-area parameter.  The foreground always holds one
blob of area 2100. -/
def blobAlg : BGAlg (List ℚ) Nat where
  construct := fun _ => 0
  get_foreground := fun _ _ => [2100]
  get_leftover_object_mask := fun m a => List.filter (fun b => decide (a ≤ b)) m
  any := fun m => !(List.isEmpty m)
  apply := fun b _ => b + 1

/-- A concrete seat built over blobAlg. -/
def seatBlob : Seat (List ℚ) Nat :=
  Seat.init blobAlg [] ⟨0, 0, 10, 10⟩ ⟨0, 0, 10, 10⟩

/-- C4 counterexample: the minimum blob area actually applied by
check_leftover_obj is not the state threshold CONTOUR_AREA_THRESHOLD = 2500
it is called with: on a foreground holding one blob of area 2100 the check
keeps the blob (hardcoded min area 2000) while filtering at 2500 removes it. -/
theorem claim_C4_cex :
    Seat.check_leftover_obj seatBlob blobAlg [] CONTOUR_AREA_THRESHOLD ≠
      blobAlg.get_leftover_object_mask
        (blobAlg.get_foreground seatBlob.bg_subtractor (seatBlob.get_table_image []))
        CONTOUR_AREA_THRESHOLD := by
  decide

/-- C4 (amended): no_person_detected passes min-area 2500 while OCCUPIED or
ON_HOLD and 2500 * 1.5 = 3750 while EMPTY (the EMPTY value strictly larger),
but check_leftover_obj ignores this argument: the minimum blob area actually
applied by the mask extraction is the hardcoded 2000, identical in every
state. -/
theorem claim_C4 {Mask S : Type} (alg : BGAlg Mask S) (s : Seat Mask S)
    (img : Image) (t : ℚ) :
    Seat.check_leftover_obj s alg img t =
      alg.get_leftover_object_mask
        (alg.get_foreground s.bg_subtractor (s.get_table_image img)) 2000 ∧
    CONTOUR_AREA_THRESHOLD * 1.5 = 3750 ∧
    CONTOUR_AREA_THRESHOLD < CONTOUR_AREA_THRESHOLD * 1.5 :=
  ⟨rfl, by norm_num [CONTOUR_AREA_THRESHOLD], by norm_num [CONTOUR_AREA_THRESHOLD]⟩

/-- C5: the background model is mutated only by the EMPTY branch of
no_person_detected, and there exactly when the skip window has elapsed
(MAX_SKIP_FRAMES ≤ skip_counter), person_in_frame_counter = 0, and the
EMPTY-threshold leftover check reports no object; person_detected and
update_chair_bb never touch it, and neither do the OCCUPIED and ON_HOLD
branches of no_person_detected. -/
theorem claim_C5 {Mask S : Type} (alg : BGAlg Mask S) (s : Seat Mask S)
    (hr : Reachable alg s) :
    (Seat.person_detected s).bg_subtractor = s.bg_subtractor ∧
    (∀ box : Rect, (s.update_chair_bb box).bg_subtractor = s.bg_subtractor) ∧
    (∀ img : Image, (Seat.no_person_detected alg s img).bg_subtractor =
      if s.status = SeatStatus.EMPTY ∧ MAX_SKIP_FRAMES ≤ s.skip_counter ∧
          s.person_in_frame_counter = 0 ∧
          alg.any (s.check_leftover_obj alg img (CONTOUR_AREA_THRESHOLD * 1.5)) = false
      then alg.apply s.bg_subtractor (s.get_table_image img)
      else s.bg_subtractor) := by
  have hp := (seatInv_of_reachable hr).1
  obtain ⟨st, bb, ba, tb, p, e, o, sk, ecb, ccb, bg⟩ := s
  refine ⟨?_, fun box => ?_, fun img => ?_⟩
  · cases st
    all_goals simp only [Seat.person_detected, Seat.become_occupied]
    all_goals repeat' split
    all_goals rfl
  · simp only [Seat.update_chair_bb]
    repeat' split
    all_goals rfl
  · cases st
    all_goals
      simp only [Seat.no_person_detected, Seat.become_empty, Seat.become_on_hold,
        Seat.update_background]
    all_goals repeat' split
    all_goals
      first
        | rfl
        | (exfalso; omega)
        | (simp_all [Seat.check_leftover_obj, Seat.get_table_image]; omega)
        | simp_all [Seat.check_leftover_obj, Seat.get_table_image]

theorem claim_C5_witness :
    (Seat.person_detected seat0).bg_subtractor = seat0.bg_subtractor :=
  (claim_C5 falseAlg seat0
    (Reachable.init [] ⟨0, 0, 10, 10⟩ ⟨0, 0, 10, 10⟩)).1

/-- C7: in every state reachable from construction, the three counters are
non-negative, and person_detected on an OCCUPIED seat never lowers
person_in_frame_counter. -/
theorem claim_C7 {Mask S : Type} (alg : BGAlg Mask S) (s : Seat Mask S)
    (hr : Reachable alg s) :
    (0 ≤ s.person_in_frame_counter ∧ 0 ≤ s.skip_counter ∧
      0 ≤ s.object_in_frame_counter) ∧
    (s.status = SeatStatus.OCCUPIED →
      s.person_in_frame_counter ≤ (Seat.person_detected s).person_in_frame_counter) := by
  have hinv := seatInv_of_reachable hr
  refine ⟨⟨hinv.1, hinv.2.1, hinv.2.2.1⟩, fun hocc => ?_⟩
  have hle := hinv.2.2.2.1
  obtain ⟨st, bb, ba, tb, p, e, o, sk, ecb, ccb, bg⟩ := s
  have hst : st = SeatStatus.OCCUPIED := hocc
  subst hst
  simp only [Seat.person_detected, Seat.become_occupied, MAX_EMPTY_FRAMES] at *
  split
  all_goals simp_all

theorem claim_C7_witness :
    0 ≤ seat0.person_in_frame_counter ∧ 0 ≤ seat0.skip_counter ∧
      0 ≤ seat0.object_in_frame_counter :=
  (claim_C7 falseAlg seat0
    (Reachable.init [] ⟨0, 0, 10, 10⟩ ⟨0, 0, 10, 10⟩)).1

/-- C10: in every state reachable from construction,
person_in_frame_counter ≤ 100, and it stays at most 100 after one more
person_detected call. -/
theorem claim_C10 {Mask S : Type} (alg : BGAlg Mask S) (s : Seat Mask S)
    (hr : Reachable alg s) :
    s.person_in_frame_counter ≤ 100 ∧
    (Seat.person_detected s).person_in_frame_counter ≤ 100 :=
  ⟨(seatInv_of_reachable hr).2.2.2.1,
    (seatInv_of_reachable (Reachable.seen hr)).2.2.2.1⟩

theorem claim_C10_witness :
    seat0.person_in_frame_counter ≤ 100 :=
  (claim_C10 falseAlg seat0
    (Reachable.init [] ⟨0, 0, 10, 10⟩ ⟨0, 0, 10, 10⟩)).1

lemma npd_empty_obj {Mask S : Type} (alg : BGAlg Mask S) (s : Seat Mask S)
    (img : Image) (h1 : s.status = SeatStatus.EMPTY)
    (h2 : MAX_SKIP_FRAMES ≤ s.skip_counter) (h3 : s.person_in_frame_counter = 0)
    (hobj : alg.any (s.check_leftover_obj alg img (CONTOUR_AREA_THRESHOLD * 1.5)) = true) :
    Seat.no_person_detected alg s img =
      if s.object_in_frame_counter + 1 = TRANSITION_FRAMES_THRESHOLD then
        { s with object_in_frame_counter := 0, status := SeatStatus.ON_HOLD }
      else { s with object_in_frame_counter := s.object_in_frame_counter + 1 } := by
  obtain ⟨st, bb, ba, tb, p, e, o, sk, ecb, ccb, bg⟩ := s
  have hst : st = SeatStatus.EMPTY := h1
  subst hst
  simp only [Seat.no_person_detected, Seat.become_on_hold]
  rw [if_neg (by simp only [MAX_SKIP_FRAMES] at h2 ⊢; omega),
    if_neg (by simp only [] at h3; omega)]
  simp only [hobj]
  split <;> simp_all

lemma iterAbsent_empty_obj {Mask S : Type} (alg : BGAlg Mask S) (imgs : Nat → Image)
    (s : Seat Mask S) (h1 : s.status = SeatStatus.EMPTY)
    (h2 : MAX_SKIP_FRAMES ≤ s.skip_counter) (h3 : s.person_in_frame_counter = 0)
    (h4 : s.object_in_frame_counter = 0)
    (hobj : ∀ k : Nat, k < 100 →
      alg.any (s.check_leftover_obj alg (imgs k) (CONTOUR_AREA_THRESHOLD * 1.5)) = true) :
    ∀ k : Nat, k ≤ 99 →
      (iterAbsent alg imgs s k).status = SeatStatus.EMPTY ∧
      (iterAbsent alg imgs s k).object_in_frame_counter = (k : Int) ∧
      (iterAbsent alg imgs s k).skip_counter = s.skip_counter ∧
      (iterAbsent alg imgs s k).person_in_frame_counter = 0 ∧
      (iterAbsent alg imgs s k).bg_subtractor = s.bg_subtractor ∧
      (iterAbsent alg imgs s k).table_bb = s.table_bb := by
  intro k
  induction k with
  | zero => exact fun _ => ⟨h1, by simp [iterAbsent, h4], rfl, h3, rfl, rfl⟩
  | succ n ih =>
      intro hle
      obtain ⟨ha, hb, hc, hd, he, hf⟩ := ih (by omega)
      have hobjK : alg.any ((iterAbsent alg imgs s n).check_leftover_obj alg (imgs n)
          (CONTOUR_AREA_THRESHOLD * 1.5)) = true := by
        rw [check_leftover_obj_congr alg he hf (imgs n) (CONTOUR_AREA_THRESHOLD * 1.5)
          (CONTOUR_AREA_THRESHOLD * 1.5)]
        exact hobj n (by omega)
      rw [iterAbsent, npd_empty_obj alg _ _ ha (by rw [hc]; exact h2) hd hobjK,
        if_neg (by rw [hb]; simp only [TRANSITION_FRAMES_THRESHOLD]; omega)]
      refine ⟨by simp [ha], ?_, by simp [hc], by simp [hd], by simp [he], by simp [hf]⟩
      simp only [hb]
      push_cast
      ring

/-- C8 (amended): from EMPTY with the skip window elapsed,
person_in_frame_counter = 0 and object_in_frame_counter = 0, one hundred
consecutive no_person_detected calls whose EMPTY-threshold leftover check
reports an object increment object_in_frame_counter by one per call, leave the
status EMPTY after each of the first 99 calls, and transition to ON_HOLD
exactly on the 100th call with object_in_frame_counter reset to 0. -/
theorem claim_C8 {Mask S : Type} (alg : BGAlg Mask S) (imgs : Nat → Image)
    (s : Seat Mask S) (h1 : s.status = SeatStatus.EMPTY)
    (h2 : MAX_SKIP_FRAMES ≤ s.skip_counter) (h3 : s.person_in_frame_counter = 0)
    (h4 : s.object_in_frame_counter = 0)
    (hobj : ∀ k : Nat, k < 100 →
      alg.any (s.check_leftover_obj alg (imgs k) (CONTOUR_AREA_THRESHOLD * 1.5)) = true) :
    (∀ k : Nat, k ≤ 99 →
        (iterAbsent alg imgs s k).status = SeatStatus.EMPTY ∧
        (iterAbsent alg imgs s k).object_in_frame_counter = (k : Int)) ∧
    (iterAbsent alg imgs s 100).status = SeatStatus.ON_HOLD ∧
    (iterAbsent alg imgs s 100).object_in_frame_counter = 0 := by
  have aux := iterAbsent_empty_obj alg imgs s h1 h2 h3 h4 hobj
  have h99 := aux 99 (by omega)
  have hobjK : alg.any ((iterAbsent alg imgs s 99).check_leftover_obj alg (imgs 99)
      (CONTOUR_AREA_THRESHOLD * 1.5)) = true := by
    rw [check_leftover_obj_congr alg h99.2.2.2.2.1 h99.2.2.2.2.2 (imgs 99)
      (CONTOUR_AREA_THRESHOLD * 1.5) (CONTOUR_AREA_THRESHOLD * 1.5)]
    exact hobj 99 (by omega)
  have h100eq : iterAbsent alg imgs s 100 =
      { (iterAbsent alg imgs s 99) with
          object_in_frame_counter := 0
          status := SeatStatus.ON_HOLD } := by
    have h100 : (100 : Nat) = 99 + 1 := rfl
    rw [h100, iterAbsent,
      npd_empty_obj alg _ _ h99.1 (by rw [h99.2.2.1]; exact h2) h99.2.2.2.1 hobjK,
      if_pos (by rw [h99.2.1]; simp [TRANSITION_FRAMES_THRESHOLD])]
  refine ⟨fun k hk => ⟨(aux k hk).1, (aux k hk).2.1⟩, ?_, ?_⟩ <;>
    rw [h100eq]

/-- A concrete EMPTY seat with the skip window elapsed and
object_in_frame_counter = 0. -/
def seatSkip : Seat Bool Nat :=
  { seat0 with skip_counter := 30 }

theorem claim_C8_witness :
    seatSkip.status = SeatStatus.EMPTY ∧ MAX_SKIP_FRAMES ≤ seatSkip.skip_counter ∧
    seatSkip.person_in_frame_counter = 0 ∧ seatSkip.object_in_frame_counter = 0 ∧
    (iterAbsent trueAlg (fun _ => []) seatSkip 100).status = SeatStatus.ON_HOLD :=
  ⟨rfl, by decide, rfl, rfl,
    (claim_C8 trueAlg (fun _ => []) seatSkip rfl (by decide) rfl rfl
      (fun _ _ => rfl)).2.1⟩

/-- A concrete EMPTY seat with the skip window elapsed whose
object_in_frame_counter is already 99. -/
def seatObj99 : Seat Bool Nat :=
  { seat0 with skip_counter := 30, object_in_frame_counter := 99 }

/-- C8 counterexample: the claim's precondition (EMPTY, skip window elapsed,
person_in_frame_counter = 0) does not constrain object_in_frame_counter; with
object_in_frame_counter = 99 the very first object-reporting
no_person_detected call already transitions to ON_HOLD, so the status is not
EMPTY after each of the first 99 calls. -/
theorem claim_C8_cex :
    seatObj99.status = SeatStatus.EMPTY ∧
    MAX_SKIP_FRAMES ≤ seatObj99.skip_counter ∧
    seatObj99.person_in_frame_counter = 0 ∧
    trueAlg.any (seatObj99.check_leftover_obj trueAlg []
      (CONTOUR_AREA_THRESHOLD * 1.5)) = true ∧
    (iterAbsent trueAlg (fun _ => []) seatObj99 1).status = SeatStatus.ON_HOLD := by
  decide

/-- Modelled from the spec (4.2, failure/edge behavior): a background model
conforms when an empty or degenerate input image (zero area) yields an
all-zero mask, hence a leftover check that reports no object, for every
background state and min-area parameter. -/
def Conforming {Mask S : Type} (alg : BGAlg Mask S) : Prop :=
  ∀ (bg : S) (img : Image) (a : ℚ), zeroArea img = true →
    alg.any (alg.get_leftover_object_mask (alg.get_foreground bg img) a) = false

/-- A concrete conforming background-model instance: the foreground is
nonempty exactly when the input image has nonzero area. -/
def cropAlg : BGAlg Bool Nat where
  construct := fun _ => 0
  get_foreground := fun _ img => !(zeroArea img)
  get_leftover_object_mask := fun m _ => m
  any := fun m => m
  apply := fun b _ => b + 1

lemma cropAlg_conforming : Conforming cropAlg := by
  intro bg img a h
  simp [cropAlg, h]

lemma rectangle_area_crop_box (a b : Rect) :
    rectangle_area (crop_box_to_seat a b) = rectangle_overlap a b := by
  simp only [rectangle_area, crop_box_to_seat, rectangle_overlap]
  congr 1 <;> congr 1 <;> ring

lemma crop_box_disjoint (a b : Rect) (h : rectangle_overlap a b = 0) :
    (crop_box_to_seat a b).x1 - (crop_box_to_seat a b).x0 ≤ 0 ∨
    (crop_box_to_seat a b).y1 - (crop_box_to_seat a b).y0 ≤ 0 := by
  have h0 : max 0 (min a.x1 b.x1 - max a.x0 b.x0) *
      max 0 (min a.y1 b.y1 - max a.y0 b.y0) = 0 := h
  rcases mul_eq_zero.mp h0 with h1 | h1 <;> simp [crop_box_to_seat] <;> omega

/-- C6 (amended): for every seat region disjoint from the table rectangle the
table_bb computed at construction is degenerate in the sense that its width
or its height is non-positive (it can be negative), so its rectangle_area is
0; and for every conforming background model, whenever the cropped table
image has zero area the leftover check reports no object.  The original
stronger statement (width and height always non-negative, and no object
reported for every image on a disjoint seat) fails on the code. -/
theorem claim_C6 {Mask S : Type} (alg : BGAlg Mask S) (hconf : Conforming alg)
    (bg_img : Image) (bb tbb : Rect) :
    (rectangle_overlap bb tbb = 0 →
      ((Seat.init alg bg_img bb tbb).table_bb.x1 -
          (Seat.init alg bg_img bb tbb).table_bb.x0 ≤ 0 ∨
        (Seat.init alg bg_img bb tbb).table_bb.y1 -
          (Seat.init alg bg_img bb tbb).table_bb.y0 ≤ 0) ∧
      rectangle_area (Seat.init alg bg_img bb tbb).table_bb = 0) ∧
    (∀ (img : Image) (t : ℚ),
      zeroArea ((Seat.init alg bg_img bb tbb).get_table_image img) = true →
      alg.any ((Seat.init alg bg_img bb tbb).check_leftover_obj alg img t) = false) := by
  constructor
  · intro hdisj
    refine ⟨crop_box_disjoint bb tbb hdisj, ?_⟩
    show rectangle_area (crop_box_to_seat bb tbb) = 0
    rw [rectangle_area_crop_box]
    exact hdisj
  · intro img t hz
    exact hconf _ _ _ hz

theorem claim_C6_witness :
    rectangle_overlap ⟨0, 0, 10, 10⟩ ⟨20, 20, 30, 30⟩ = 0 ∧
    rectangle_area (Seat.init cropAlg [] ⟨0, 0, 10, 10⟩ ⟨20, 20, 30, 30⟩).table_bb = 0 :=
  ⟨by decide,
    ((claim_C6 cropAlg cropAlg_conforming [] ⟨0, 0, 10, 10⟩ ⟨20, 20, 30, 30⟩).1
      (by decide)).2⟩

/-- A 10-row, 990-column image matching the seat region (10, 0, 1000, 10). -/
def img990 : Image := List.replicate 10 (List.replicate 990 0)

/-- A seat whose region (10, 0, 1000, 10) is disjoint from the table
rectangle (0, 0, 5, 10). -/
def seatC6 : Seat Bool Nat :=
  Seat.init cropAlg img990 ⟨10, 0, 1000, 10⟩ ⟨0, 0, 5, 10⟩

set_option maxRecDepth 20000 in
/-- C6 counterexample: a seat region disjoint from the table rectangle whose
computed table_bb has negative width (x1 - x0 = -5 < 0), and on which the
leftover check of a conforming background model still reports an object:
the stored x1 = -5 acts as an end-relative Python slice index, so the cropped
table image is a non-empty 10 x 985 region. -/
theorem claim_C6_cex :
    rectangle_overlap ⟨10, 0, 1000, 10⟩ ⟨0, 0, 5, 10⟩ = 0 ∧
    seatC6.table_bb.x1 - seatC6.table_bb.x0 < 0 ∧
    cropAlg.any (seatC6.check_leftover_obj cropAlg img990
      (CONTOUR_AREA_THRESHOLD * 1.5)) = true := by
  refine ⟨by decide, by decide, ?_⟩
  decide
